import Mathlib

/-
Verification development for an epidemic lattice simulation
(`Agent.py`, `Network.py`, `main.py`).

The Python source is embedded shallowly:
* an agent's mutable dictionary `__health_status` becomes the fields
  `health : Health` and `days : ℤ` of the `Agent` structure;
* every call to `random.randint(...)` is modelled by an explicit oracle
  argument (a natural number, or a stream of natural numbers indexed by
  the position of the draw), so each stateful Python method becomes a
  pure function of the pre-state and the oracle;
* Python floats are modelled by real numbers (`ℝ`); `math.e ** x`
  becomes `Real.exp x`;
* the networkx lattice is modelled by its integer node ids `0 .. L*L-1`
  together with the 8-neighbour adjacency of the relabelled grid, and
  each node's `"occupants"` list becomes `occ : ℕ → List Agent`.
-/

namespace Epidemic

/-- The four values of `__health_status["label"]`. -/
inductive Health
  | healthy
  | asymptomatic
  | symptomatic
  | dead
deriving DecidableEq, Repr

/-- A value that can be stored in an agent's `__location` field.
`Agent.__init__` and `__check_for_influx` store an integer site id
(`Loc.site n`), but `__check_for_movement` (Network.py line 170) passes
`self.__lattice.nodes[s_2_index]` — the node-attribute *object* of site
`s_2_index`, not its id — to `move_agent`, which stores it; that value
is modelled by `Loc.nodeObj n`. -/
inductive Loc
  | site (n : ℕ)
  | nodeObj (n : ℕ)
deriving DecidableEq, Repr

/-- `Agent.__age_categorize` (Agent.py lines 29-47): converts an integer
age to the categorical label 1-4 and stores it in `self.__age`. -/
def ageCategorize (age : ℕ) : ℕ :=
  if age ≤ 4 then 4
  else if age ≤ 14 then 3
  else if age ≤ 64 then 1
  else 2

/-- The susceptibility factor computed by `Agent.__init__`
(Agent.py line 23): `math.e**(-(self.__age) / 10)`.  At that point
`self.__age` holds the *category* produced by `__age_categorize`,
so the exponent is `-(category)/10`. -/
noncomputable def susceptibilityOf (cat : ℕ) : ℝ :=
  Real.exp (-(cat : ℝ) / 10)

/-- Susceptibility as a function of the raw drawn age: the code first
categorises the raw age and then exponentiates the category. -/
noncomputable def susceptibility (rawAge : ℕ) : ℝ :=
  susceptibilityOf (ageCategorize rawAge)

/-- The susceptibility the spec's words describe: `e^(−raw_age/10)`
applied directly to the raw age (spec §3).  Kept only for comparison
with `susceptibility`, which is what the code computes. -/
noncomputable def susceptibilitySpec (rawAge : ℕ) : ℝ :=
  Real.exp (-(rawAge : ℝ) / 10)

/-- An agent.  `health`/`days` model `__health_status`; `ageCat` models
`self.__age` (the category); `suscept` models
`self.__susceptibility_factor`; `loc` models `self.__location`. -/
structure Agent where
  health : Health
  days : ℤ
  ageCat : ℕ
  suscept : ℝ
  loc : Loc

instance : Inhabited Agent :=
  ⟨{ health := Health.healthy, days := -1, ageCat := 1, suscept := 1,
     loc := Loc.site 0 }⟩

/-- `Agent.__init__` (Agent.py lines 9-23), with the internal
`random.randint(0, 82)` draw passed as the oracle value `rawAge` and
the starting node passed as `node`.  A new agent is healthy with
`days_infected = -1`. -/
noncomputable def mkAgent (rawAge : ℕ) (node : ℕ) : Agent :=
  { health := Health.healthy
    days := -1
    ageCat := ageCategorize rawAge
    suscept := susceptibilityOf (ageCategorize rawAge)
    loc := Loc.site node }

/-- `Agent.set_infected` (Agent.py lines 81-84). -/
def setInfected (a : Agent) : Agent :=
  { a with health := Health.asymptomatic, days := 0 }

/-- `Agent.update_agent` (Agent.py lines 90-114).  `asymLen`/`symptLen`
are `asympt_phase_length`/`sympt_phase_length`; the returned boolean is
the death flag. -/
def updateAgent (a : Agent) (asymLen symptLen : ℤ) : Agent × Bool :=
  if a.health = Health.healthy ∨ a.health = Health.dead then (a, false)
  else
    let d := a.days + 1
    if a.health = Health.asymptomatic then
      if asymLen < d then ({ a with health := Health.symptomatic, days := d }, false)
      else ({ a with days := d }, false)
    else
      if asymLen + symptLen < d then ({ a with health := Health.dead, days := -1 }, true)
      else ({ a with days := d }, false)

/-- `Agent.expose_to_infection` (Agent.py lines 116-134).  The internal
`random.randint(1, 100)` draw is the oracle value `r`, so the compared
probability is `r / 100`. -/
noncomputable def exposeToInfection (a : Agent) (lam : ℝ) (r : ℕ) : Agent × Bool :=
  if a.health = Health.asymptomatic ∨ a.health = Health.symptomatic ∨
      a.health = Health.dead then
    (a, false)
  else
    if (r : ℝ) / 100 ≤ lam * a.suscept then
      ({ a with health := Health.asymptomatic, days := 0 }, true)
    else (a, false)

/-- The acceptance probability computed by `Agent.move_agent`
(Agent.py lines 159-164): `min(1, e^(β[age]·Δ))` when `n_age_1 ≤ n_age_2`
and `e^(-β[age]·Δ)` otherwise, with `Δ = n_age_2 - n_age_1`. -/
noncomputable def moveProb (beta : ℕ → ℝ) (cat n1 n2 : ℕ) : ℝ :=
  if n1 ≤ n2 then min 1 (Real.exp (beta cat * ((n2 : ℝ) - (n1 : ℝ))))
  else Real.exp (-(beta cat) * ((n2 : ℝ) - (n1 : ℝ)))

/-- `Agent.move_agent` (Agent.py lines 136-170).  Rejects only a
symptomatic mover; otherwise compares the `randint(1,100)/100` draw `r`
with the acceptance probability, and on success stores `target_node` in
`self.__location`. -/
noncomputable def moveAgent (a : Agent) (n1 n2 : ℕ) (targetNode : Loc)
    (beta : ℕ → ℝ) (r : ℕ) : Agent × Bool :=
  if a.health = Health.symptomatic then (a, false)
  else
    if (r : ℝ) / 100 ≤ moveProb beta a.ageCat n1 n2 then
      ({ a with loc := targetNode }, true)
    else (a, false)

/-- The configuration record produced by `main.py`'s argument parser. -/
structure Args where
  N : ℝ
  L : ℕ
  t : ℕ
  influx : ℝ
  n0 : ℕ
  asymL : ℤ
  symptL : ℤ
  lam : ℝ

/-- The hard-coded mobility dictionary `{ 1: 1, 2: 2, 3: 3, 4: 4 }`
of `Network.__init__` (Network.py line 29); keys outside 1-4 are absent
in the Python dict and mapped to a junk value here. -/
noncomputable def betaTable : ℕ → ℝ := fun c =>
  if c = 1 then 1 else if c = 2 then 2 else if c = 3 then 3 else
  if c = 4 then 4 else 0

/-- `self.__agent_params` (Network.py lines 26-29). -/
structure AgentParams where
  asymptLength : ℤ
  symptLength : ℤ
  lam : ℝ
  beta : ℕ → ℝ

/-- Construction of `self.__agent_params` from the argument record
(Network.py lines 26-29): the beta table is the fixed dictionary,
independent of every argument. -/
noncomputable def mkAgentParams (args : Args) : AgentParams :=
  { asymptLength := args.asymL
    symptLength := args.symptL
    lam := args.lam
    beta := betaTable }

/-- Row index of site `s` after `__generate_lattice`'s row-major
relabelling (Network.py lines 68-74): `labels[(i, j)] = i*L + j`. -/
def siteRow (L s : ℕ) : ℕ := s / L

/-- Column index of site `s` under the row-major relabelling. -/
def siteCol (L s : ℕ) : ℕ := s % L

/-- Adjacency of the lattice built by `__generate_lattice`
(Network.py lines 48-77): the 4 grid edges of `nx.grid_2d_graph` plus
both diagonal edge families, i.e. Chebyshev distance exactly 1. -/
def adjacent8 (L s t : ℕ) : Bool :=
  max ((siteRow L s : ℤ) - siteRow L t).natAbs
      ((siteCol L s : ℤ) - siteCol L t).natAbs == 1

/-- The neighbour list of site `s`, as produced by
`self.__lattice.neighbors(s)` (same member set; the iteration order of
networkx is irrelevant because neighbour picks go through the oracle). -/
def neighborsList (L s : ℕ) : List ℕ :=
  (List.range (L * L)).filter (fun t => adjacent8 L s t)

/-- Number of occupants of a site sharing a given age category:
the two counting loops of `__check_for_movement`
(Network.py lines 152-167), which run over the *complete* occupant
list. -/
def countSameAge (l : List Agent) (cat : ℕ) : ℕ :=
  (l.filter (fun b => b.ageCat == cat)).length

/-- The symptomatic scan of `__check_for_movement` (Network.py line
140): `for agent_index in range(0, len(occupants) - 1)` visits indices
`0 .. len-2`, i.e. every occupant *except the last*. -/
def scanSymptomatic (l : List Agent) : Bool :=
  l.dropLast.any (fun a => decide (a.health = Health.symptomatic))

/-- The origin-selection rejection loop of `__check_for_movement`
(Network.py lines 121-125): keep drawing sites until an occupied one is
found.  The Python loop is unbounded; it is modelled with an explicit
`fuel` count of remaining draws, `none` meaning the loop was still
running after consuming all `fuel` draws.  `draws k` is the `k`-th
`random.randint(0, num_nodes - 1)` value. -/
def selectOccupied (occ : ℕ → List Agent) (draws : ℕ → ℕ) :
    ℕ → ℕ → Option ℕ
  | _, 0 => none
  | k, fuel + 1 =>
    if (occ (draws k)).length = 0 then selectOccupied occ draws (k + 1) fuel
    else some (draws k)

/-- The destination resampling loop of `__check_for_movement`
(Network.py lines 130-149).  The Python loop returns (movement skipped)
when `repeat_counter > 30`, i.e. after the 31st symptomatic scan; this
is modelled by structural recursion on `fuel = 31 - repeat_counter`,
entered with `fuel = 31`.  `nDraws k` is the `k`-th
`random.randint(0, len(neighbors) - 1)` value; resample `k` picks
`neighbors[nDraws k]`. -/
def pickDest (occ : ℕ → List Agent) (nbrs : List ℕ) (nDraws : ℕ → ℕ) :
    ℕ → ℕ → ℕ → Option ℕ
  | _, 0, _ => none
  | k, fuel + 1, s2 =>
    if scanSymptomatic (occ s2) then
      pickDest occ nbrs nDraws (k + 1) fuel (nbrs.getD (nDraws k) 0)
    else some s2

/-- Result of the movement phase: the updated occupant lists, and a
record of the `move_agent` call when one was reached
(`some (s1, s2, agentIndex)`), `none` when the phase returned without
invoking `move_agent`. -/
structure MoveResult where
  occ : ℕ → List Agent
  attempted : Option (ℕ × ℕ × ℕ)

/-- `Network.__check_for_movement` (Network.py lines 114-173).
Oracle values: `siteDraws` feeds the origin rejection loop, `nDraws 0`
the initial neighbour pick and `nDraws (k+1)` the resamples,
`agentDraw` the `randint(0, len(occupants)-1)` mover pick, `probDraw`
the `randint(1, 100)` inside `move_agent`.  Line 170 passes
`self.__lattice.nodes[s_2_index]` — the node-attribute object — as the
target, embedded as `Loc.nodeObj s2`.  On success the mover is popped
from the origin list and appended to the destination list (line 173). -/
noncomputable def checkForMovement (L : ℕ) (occ : ℕ → List Agent)
    (params : AgentParams) (siteDraws nDraws : ℕ → ℕ)
    (agentDraw probDraw fuel : ℕ) : MoveResult :=
  match selectOccupied occ siteDraws 0 fuel with
  | none => { occ := occ, attempted := none }
  | some s1 =>
    let nbrs := neighborsList L s1
    match pickDest occ nbrs nDraws 1 31 (nbrs.getD (nDraws 0) 0) with
    | none => { occ := occ, attempted := none }
    | some s2 =>
      let mover := (occ s1).getD agentDraw default
      let n1 := countSameAge (occ s1) mover.ageCat
      let n2 := countSameAge (occ s2) mover.ageCat
      let res := moveAgent mover n1 n2 (Loc.nodeObj s2) params.beta probDraw
      { occ :=
          if res.2 then
            fun s =>
              if s = s1 then (occ s1).eraseIdx agentDraw
              else if s = s2 then occ s2 ++ [res.1]
              else occ s
          else occ
        attempted := some (s1, s2, agentDraw) }

/-- One row of `self.__stats` (Network.py line 35). -/
structure Stats where
  total : ℤ
  alive : ℤ
  dead : ℤ
  infected : ℤ
deriving DecidableEq, Repr

/-- The engine state the per-tick phases act on: the per-site occupant
lists and the per-category statistics. -/
structure SimState where
  occ : ℕ → List Agent
  stats : ℕ → Stats

/-- Replace the occupant list of one site. -/
def updateAt (occ : ℕ → List Agent) (t : ℕ) (l : List Agent) :
    ℕ → List Agent :=
  fun s => if s = t then l else occ s

/-- `self.__stats[c]["infected"] += 1` (Network.py line 197). -/
def bumpInfected (stats : ℕ → Stats) (c : ℕ) : ℕ → Stats :=
  fun k => if k = c then { stats c with infected := (stats c).infected + 1 }
           else stats k

/-- `self.__stats[c]["total"] += 1; self.__stats[c]["alive"] += 1`
(Network.py lines 235-236). -/
def bumpCreatedAlive (stats : ℕ → Stats) (c : ℕ) : ℕ → Stats :=
  fun k =>
    if k = c then
      { stats c with
          total := (stats c).total + 1
          alive := (stats c).alive + 1 }
    else stats k

/-- `self.__stats[c]["alive"] -= 1; self.__stats[c]["dead"] += 1`
(Network.py lines 215-216). -/
def bumpDeath (stats : ℕ → Stats) (c : ℕ) : ℕ → Stats :=
  fun k =>
    if k = c then
      { stats c with
          alive := (stats c).alive - 1
          dead := (stats c).dead + 1 }
    else stats k

/-- One `expose_to_infection` call on the occupant at position `i` of
site `t`, with the statistics update of Network.py lines 195-197. -/
noncomputable def exposeStep (lam : ℝ) (r : ℕ) (st : SimState) (t i : ℕ) :
    SimState :=
  let a := (st.occ t).getD i default
  let res := exposeToInfection a lam r
  { occ := updateAt st.occ t ((st.occ t).set i res.1)
    stats := if res.2 then bumpInfected st.stats res.1.ageCat else st.stats }

/-- The innermost exposure loop of `__check_for_infection`
(Network.py lines 193-197): `for o_index in range(0,
len(occupants) - 1)` exposes the occupants at indices `0 .. len-2` of
neighbour site `t` — every occupant except the last.  `oracle i` is the
`randint(1, 100)` draw used for target index `i` (consumed only when
that target is healthy, matching the Python draw placement). -/
noncomputable def exposeSite (lam : ℝ) (oracle : ℕ → ℕ) (st : SimState)
    (t : ℕ) : SimState :=
  (List.range ((st.occ t).length - 1)).foldl
    (fun s i => exposeStep lam (oracle i) s t i) st

/-- The neighbour loop of `__check_for_infection` (lines 191-197): one
infectious source exposes (the checked prefix of) every
neighbour-or-self site. -/
noncomputable def infectFrom (lam : ℝ) (oracle : ℕ → ℕ → ℕ)
    (nbrs : List ℕ) (st : SimState) : SimState :=
  (nbrs.enum.foldl (fun s p => exposeSite lam (oracle p.1) s p.2) st)

/-- The occupant loop of `__check_for_infection` at one node `s`
(lines 186-197): every occupant (complete range) whose *current* state
is asymptomatic or symptomatic (`get_infectious`) triggers the
neighbour loop over `neighbors + [s]`. -/
noncomputable def infectNode (lam : ℝ) (oracle : ℕ → ℕ → ℕ → ℕ) (L : ℕ)
    (st : SimState) (s : ℕ) : SimState :=
  let nbrs := neighborsList L s ++ [s]
  (List.range ((st.occ s).length)).foldl
    (fun acc i =>
      if ((acc.occ s).getD i default).health = Health.asymptomatic ∨
          ((acc.occ s).getD i default).health = Health.symptomatic then
        infectFrom lam (oracle i) nbrs acc
      else acc) st

/-- `Network.__check_for_infection` (Network.py lines 175-197): the
node loop over all `L*L` sites. -/
noncomputable def checkForInfection (lam : ℝ)
    (oracle : ℕ → ℕ → ℕ → ℕ → ℕ) (L : ℕ) (st : SimState) : SimState :=
  (List.range (L * L)).foldl (fun acc s => infectNode lam (oracle s) L acc s) st

/-- One `update_agent` call on the occupant at position `i` of site
`s`, with the statistics update of Network.py lines 211-216. -/
def deathAt (asymLen symptLen : ℤ) (st : SimState) (s i : ℕ) : SimState :=
  let a := (st.occ s).getD i default
  let res := updateAgent a asymLen symptLen
  { occ := updateAt st.occ s ((st.occ s).set i res.1)
    stats := if res.2 then bumpDeath st.stats res.1.ageCat else st.stats }

/-- `Network.__check_for_death` (Network.py lines 199-216): every
occupant of every site (complete ranges) is advanced. -/
def checkForDeath (asymLen symptLen : ℤ) (L : ℕ) (st : SimState) : SimState :=
  (List.range (L * L)).foldl
    (fun acc s =>
      (List.range ((acc.occ s).length)).foldl
        (fun acc2 i => deathAt asymLen symptLen acc2 s i) acc) st

/-- `Network.__check_for_influx` (Network.py lines 218-236).  `r` is
the `randint(1, 100)` draw, `sd` the `randint(0, num_nodes - 1)` site
draw for the new agent, `ad` the `randint(0, 82)` raw-age draw inside
`Agent.__init__`.  A new agent is created iff `r/100 < influx`
(strict). -/
noncomputable def checkForInflux (influx : ℝ) (r sd ad : ℕ)
    (st : SimState) : SimState :=
  if (r : ℝ) / 100 < influx then
    { occ := updateAt st.occ sd (st.occ sd ++ [mkAgent ad sd])
      stats := bumpCreatedAlive st.stats (ageCategorize ad) }
  else st

/-! Concrete fixtures used by the counterexample / failing-input
theorems and the witnesses below.  Oracle streams are constant-zero
where a single valid draw suffices. -/

/-- The constant-zero oracle stream. -/
def d0 : ℕ → ℕ := fun _ => 0

/-- A fully unoccupied lattice: every site's occupant list is empty
(reached e.g. with density `N = 0`, `n_0 = 0`, `influx = 0`). -/
def emptyOcc : ℕ → List Agent := fun _ => []

/-- `main.py` default arguments (lines 13-27): `L=10, N=1.0, t=500,
n_0=1, lam=0.1, asym_l=20, symp_l=20, influx=0.0`. -/
noncomputable def argsDefault : Args :=
  { N := 1, L := 10, t := 500, influx := 0, n0 := 1, asymL := 20,
    symptL := 20, lam := 1 / 10 }

/-- The agent parameters the engine builds from the default args. -/
noncomputable def paramsDefault : AgentParams := mkAgentParams argsDefault

/-- A healthy adult-category mover created at site 0 (raw age 20). -/
noncomputable def moverC2 : Agent := mkAgent 20 0

/-- A healthy adult-category agent created at site 1 (raw age 30). -/
noncomputable def buddyC2 : Agent := mkAgent 30 1

/-- A 2×2 lattice occupancy: the mover alone at site 0, one same-age
agent at site 1, all other sites empty. -/
noncomputable def occC2 : ℕ → List Agent := fun s =>
  if s = 0 then [moverC2] else if s = 1 then [buddyC2] else []

/-- An agent that has died (raw age 20, so adult category), sitting at
site 0 with the sentinel day counter. -/
noncomputable def deadC3 : Agent := { mkAgent 20 0 with health := Health.dead }

/-- A healthy adult-category agent created at site 1 (raw age 40). -/
noncomputable def buddyC3 : Agent := mkAgent 40 1

/-- A 2×2 lattice occupancy: the dead agent alone at site 0, one agent
of the same category at site 1. -/
noncomputable def occC3 : ℕ → List Agent := fun s =>
  if s = 0 then [deadC3] else if s = 1 then [buddyC3] else []

/-- A healthy mover at site 0 (raw age 20). -/
noncomputable def moverC6 : Agent := mkAgent 20 0

/-- A symptomatic agent (raw age 70, elderly category) at site 1. -/
noncomputable def sympC6 : Agent :=
  { mkAgent 70 1 with health := Health.symptomatic, days := 5 }

/-- A 2×2 lattice occupancy: the mover at site 0, the symptomatic agent
as the sole (hence last) occupant of site 1. -/
noncomputable def occC6 : ℕ → List Agent := fun s =>
  if s = 0 then [moverC6] else if s = 1 then [sympC6] else []

/-- An infectious (seed-style asymptomatic) agent at site 0. -/
noncomputable def infC4 : Agent := setInfected (mkAgent 30 0)

/-- A healthy agent at site 0, the *last* occupant of its site. -/
noncomputable def hlthC4 : Agent := mkAgent 20 0

/-- A 1×1 lattice state: site 0 holds the infectious agent followed by
the healthy agent; zeroed statistics. -/
noncomputable def stC4 : SimState :=
  { occ := fun s => if s = 0 then [infC4, hlthC4] else []
    stats := fun _ => ⟨0, 0, 0, 0⟩ }

/-- A healthy agent fixture with unit susceptibility. -/
def aH : Agent :=
  { health := Health.healthy, days := -1, ageCat := 1, suscept := 1,
    loc := Loc.site 0 }

/-- An asymptomatic agent fixture on day 0. -/
def aA : Agent :=
  { health := Health.asymptomatic, days := 0, ageCat := 1, suscept := 1,
    loc := Loc.site 0 }

/-- A symptomatic agent fixture on day 41. -/
def aS : Agent :=
  { health := Health.symptomatic, days := 41, ageCat := 1, suscept := 1,
    loc := Loc.site 0 }

/-- A dead agent fixture. -/
def aD : Agent :=
  { health := Health.dead, days := -1, ageCat := 1, suscept := 1,
    loc := Loc.site 0 }

/-- An empty simulation state with zeroed statistics. -/
def st0 : SimState :=
  { occ := fun _ => [], stats := fun _ => ⟨0, 0, 0, 0⟩ }

/-! Theorems. -/

/-- Every age category produced by `__age_categorize` is at least 1. -/
theorem ageCategorize_pos (age : ℕ) : 1 ≤ ageCategorize age := by
  unfold ageCategorize
  split_ifs <;> norm_num

/-- Claim C1 as stated is false on the code: the susceptibility factor
is computed from the age *category* (Agent.py line 23 runs after
`__age_categorize` has overwritten `self.__age`), so
`susceptibility 0 = e^(-4/10) ≠ 1`, and susceptibility is not strictly
decreasing in the raw age — it increases from raw age 4 (category 4) to
raw age 5 (category 3). -/
theorem susceptibility_claim_false :
    susceptibility 0 ≠ 1 ∧ susceptibility 4 < susceptibility 5 := by
  have h0 : ageCategorize 0 = 4 := by decide
  have h4 : ageCategorize 4 = 4 := by decide
  have h5 : ageCategorize 5 = 3 := by decide
  constructor
  · rw [susceptibility, h0, susceptibilityOf]
    have : Real.exp (-(4 : ℕ) / 10 : ℝ) < 1 := by
      rw [Real.exp_lt_one_iff]; norm_num
    exact ne_of_lt this
  · rw [susceptibility, susceptibility, h4, h5, susceptibilityOf,
      susceptibilityOf]
    rw [Real.exp_lt_exp]
    norm_num

/-- Claim C1, amended: the susceptibility computed once at creation
equals `e^(-(age_category)/10)` with `age_category = ageCategorize
raw_age ∈ {1,2,3,4}`; it lies in `(0,1)` (so in particular in `(0,1]`),
and at raw age 0 it is `e^(-2/5)`, not `1`. -/
theorem susceptibility_amended (rawAge node : ℕ) :
    (mkAgent rawAge node).suscept =
      Real.exp (-(ageCategorize rawAge : ℝ) / 10) ∧
    0 < (mkAgent rawAge node).suscept ∧
    (mkAgent rawAge node).suscept < 1 ∧
    susceptibility 0 = Real.exp (-(2 : ℝ) / 5) := by
  have hpos : (1 : ℝ) ≤ (ageCategorize rawAge : ℝ) := by
    exact_mod_cast ageCategorize_pos rawAge
  refine ⟨rfl, Real.exp_pos _, ?_, ?_⟩
  · rw [mkAgent]
    show susceptibilityOf (ageCategorize rawAge) < 1
    rw [susceptibilityOf, Real.exp_lt_one_iff]
    have h10 : (0 : ℝ) < 10 := by norm_num
    rw [div_lt_iff₀ h10]
    linarith
  · have h0 : ageCategorize 0 = 4 := by decide
    rw [susceptibility, h0, susceptibilityOf]
    norm_num

/-- Claim C5: the movement phase's origin-selection loop (Network.py
lines 121-125) never exits on a fully unoccupied lattice — for every
number of draws allowed (`fuel`) and every draw stream it is still
running (`none`), so the code loops forever instead of skipping the
phase as the spec prescribes. -/
theorem movement_origin_selection_diverges_on_empty
    (draws : ℕ → ℕ) (k fuel : ℕ) :
    selectOccupied emptyOcc draws k fuel = none := by
  induction fuel generalizing k with
  | zero => rfl
  | succ n ih => simpa [selectOccupied, emptyOcc] using ih (k + 1)

/-- Claim C7: `update_agent` is a no-op returning `false` on healthy
and dead agents; otherwise it increments `days_infected`, moves an
asymptomatic agent to symptomatic exactly when the incremented counter
exceeds `asympt_phase_length` (counter kept), moves a symptomatic agent
to dead with sentinel `-1` exactly when it exceeds the sum of both
phase lengths, and returns `true` exactly on that death transition. -/
theorem updateAgent_spec (a : Agent) (al sl : ℤ) :
    ((a.health = Health.healthy ∨ a.health = Health.dead) →
        updateAgent a al sl = (a, false)) ∧
    (a.health = Health.asymptomatic →
        updateAgent a al sl =
          (if al < a.days + 1 then
            ({ a with health := Health.symptomatic, days := a.days + 1 }, false)
          else ({ a with days := a.days + 1 }, false))) ∧
    (a.health = Health.symptomatic →
        updateAgent a al sl =
          (if al + sl < a.days + 1 then
            ({ a with health := Health.dead, days := -1 }, true)
          else ({ a with days := a.days + 1 }, false))) ∧
    ((updateAgent a al sl).2 = true ↔
        (a.health = Health.symptomatic ∧ al + sl < a.days + 1)) := by
  refine ⟨?_, ?_, ?_, ?_⟩
  · rintro (h | h) <;> simp [updateAgent, h]
  · intro h
    simp only [updateAgent, h]
    split_ifs <;> simp_all
  · intro h
    simp only [updateAgent, h]
    split_ifs <;> simp_all
  · cases h : a.health <;> simp only [updateAgent, h] <;>
      split_ifs <;> simp_all

/-- Witness for C7: the three branches of `updateAgent_spec` evaluated
on concrete agents (healthy no-op; asymptomatic-to-symptomatic with
`asym_len = 0` on the first call; symptomatic death on day 42 with
phase lengths 20 + 20). -/
theorem updateAgent_spec_witness :
    updateAgent aH 20 20 = (aH, false) ∧
    updateAgent aA 0 0 =
      ({ aA with health := Health.symptomatic, days := 1 }, false) ∧
    updateAgent aS 20 20 =
      ({ aS with health := Health.dead, days := -1 }, true) := by
  refine ⟨(updateAgent_spec aH 20 20).1 (Or.inl rfl), ?_, ?_⟩
  · have h := (updateAgent_spec aA 0 0).2.1 rfl
    simpa using h
  · have h := (updateAgent_spec aS 20 20).2.2.1 rfl
    simpa using h

/-- Claim C8: `expose_to_infection` is a no-op returning `false` on
asymptomatic, symptomatic and dead agents; on a healthy agent it
compares the drawn probability `r/100` (with `r` the `randint(1,100)`
draw, so `r/100 ∈ {0.01, …, 1.00}`) against `λ · susceptibility` and
infects (asymptomatic, day counter 0, returns `true`) exactly when
`r/100 ≤ λ · susceptibility`. -/
theorem exposeToInfection_spec (a : Agent) (lam : ℝ) (r : ℕ) :
    ((a.health = Health.asymptomatic ∨ a.health = Health.symptomatic ∨
        a.health = Health.dead) →
      exposeToInfection a lam r = (a, false)) ∧
    (a.health = Health.healthy →
      exposeToInfection a lam r =
        (if (r : ℝ) / 100 ≤ lam * a.suscept then
          ({ a with health := Health.asymptomatic, days := 0 }, true)
        else (a, false))) ∧
    ((exposeToInfection a lam r).2 = true ↔
      (a.health = Health.healthy ∧ (r : ℝ) / 100 ≤ lam * a.suscept)) ∧
    (1 ≤ r → r ≤ 100 →
      (1 : ℝ) / 100 ≤ (r : ℝ) / 100 ∧ (r : ℝ) / 100 ≤ 1) := by
  refine ⟨?_, ?_, ?_, ?_⟩
  · rintro (h | h | h) <;> simp [exposeToInfection, h]
  · intro h
    simp only [exposeToInfection, h]
    split_ifs <;> simp_all
  · cases h : a.health <;> simp only [exposeToInfection, h] <;>
      split_ifs <;> simp_all
  · intro h1 h2
    have hr1 : (1 : ℝ) ≤ (r : ℝ) := by exact_mod_cast h1
    have hr2 : (r : ℝ) ≤ 100 := by exact_mod_cast h2
    constructor <;> [skip; rw [div_le_one (by norm_num)]] <;>
      [apply div_le_div_of_nonneg_right hr1 (by norm_num); exact hr2]

/-- Witness for C8: a healthy agent with unit susceptibility exposed at
`λ = 1` with draw `r = 50` becomes asymptomatic on day 0 and the call
returns `true`; draw bounds for `r = 50` are also instantiated. -/
theorem exposeToInfection_spec_witness :
    exposeToInfection aH 1 50 =
      ({ aH with health := Health.asymptomatic, days := 0 }, true) ∧
    ((1 : ℝ) / 100 ≤ (50 : ℕ) / 100 ∧ ((50 : ℕ) : ℝ) / 100 ≤ 1) := by
  constructor
  · have h := (exposeToInfection_spec aH 1 50).2.1 rfl
    rw [h, if_pos]
    show ((50 : ℕ) : ℝ) / 100 ≤ 1 * aH.suscept
    norm_num [aH]
  · exact (exposeToInfection_spec aH 1 50).2.2.2 (by norm_num) (by norm_num)

/-- Claim C10: the mobility table the engine stores is the fixed
dictionary `{1:1, 2:2, 3:3, 4:4}` whatever the configuration record
contains, on every reachable age category it returns the category
itself, and therefore the acceptance probability computed for a mover
of category `c` uses the exponent `± c · Δ`. -/
theorem beta_table_fixed :
    (∀ args : Args, (mkAgentParams args).beta = betaTable) ∧
    (∀ w : ℕ, betaTable (ageCategorize w) = (ageCategorize w : ℝ)) ∧
    (∀ (args : Args) (w n1 n2 : ℕ),
      moveProb (mkAgentParams args).beta (ageCategorize w) n1 n2 =
        if n1 ≤ n2 then
          min 1 (Real.exp ((ageCategorize w : ℝ) * ((n2 : ℝ) - (n1 : ℝ))))
        else Real.exp (-(ageCategorize w : ℝ) * ((n2 : ℝ) - (n1 : ℝ)))) := by
  have hbt : ∀ w : ℕ, betaTable (ageCategorize w) = (ageCategorize w : ℝ) := by
    intro w
    unfold ageCategorize betaTable
    split_ifs <;> first | omega | norm_num
  refine ⟨fun args => rfl, hbt, fun args w n1 n2 => ?_⟩
  show moveProb betaTable (ageCategorize w) n1 n2 = _
  rw [moveProb, hbt w]

/-- Claim C2 fails on the code: in a successful movement the mover's
location field is set to `lattice.nodes[s_2_index]` — the destination's
node-attribute object (`Loc.nodeObj 1`) — not the destination's site id
(`Loc.site 1`), even though the occupant lists themselves are updated
correctly (mover popped from site 0, appended at site 1).  Concrete
run: 2×2 lattice, healthy mover at site 0 moving to site 1 with a
same-age occupant there (`Δ = 0`, acceptance probability 1, draw
`r = 1`). -/
theorem move_sets_location_to_node_object :
    (checkForMovement 2 occC2 paramsDefault d0 d0 0 1 1).occ 0 = [] ∧
    (checkForMovement 2 occC2 paramsDefault d0 d0 0 1 1).occ 1 =
      [buddyC2, { moverC2 with loc := Loc.nodeObj 1 }] ∧
    (∀ n : ℕ, Loc.nodeObj 1 ≠ Loc.site n) := by
  have hres : moveAgent moverC2 1 1 (Loc.nodeObj 1) betaTable 1 =
      ({ moverC2 with loc := Loc.nodeObj 1 }, true) := by
    rw [moveAgent]
    rw [if_neg (show ¬ moverC2.health = Health.symptomatic by decide)]
    rw [if_pos]
    rw [moveProb]
    norm_num [betaTable, Real.exp_zero]
  have hcm : checkForMovement 2 occC2 paramsDefault d0 d0 0 1 1 =
      { occ :=
          if (moveAgent moverC2 1 1 (Loc.nodeObj 1) betaTable 1).2 then
            (fun s => if s = 0 then (occC2 0).eraseIdx 0
              else if s = 1 then
                occC2 1 ++ [(moveAgent moverC2 1 1 (Loc.nodeObj 1) betaTable 1).1]
              else occC2 s)
          else occC2
        attempted := some (0, 1, 0) } := rfl
  rw [hcm, hres]
  refine ⟨by simp [occC2], by simp [occC2], fun n h => by cases h⟩

/-- Claim C3 fails on the code: a dead agent can be selected as the
mover (the mover pick has no state filter) and `move_agent` rejects
only symptomatic agents, so the dead agent is relocated — its site
membership and location change after death.  Concrete run: 2×2
lattice, dead agent alone at site 0, same-category agent at site 1
(`Δ = 0`, acceptance probability 1, draw `r = 1`): after the movement
phase site 0 is empty and the dead agent sits in site 1's list. -/
theorem dead_agent_can_be_moved :
    deadC3.health = Health.dead ∧
    (checkForMovement 2 occC3 paramsDefault d0 d0 0 1 1).occ 0 = [] ∧
    (checkForMovement 2 occC3 paramsDefault d0 d0 0 1 1).occ 1 =
      [buddyC3, { deadC3 with loc := Loc.nodeObj 1 }] := by
  have hres : moveAgent deadC3 1 1 (Loc.nodeObj 1) betaTable 1 =
      ({ deadC3 with loc := Loc.nodeObj 1 }, true) := by
    rw [moveAgent]
    rw [if_neg (show ¬ deadC3.health = Health.symptomatic by decide)]
    rw [if_pos]
    rw [moveProb]
    norm_num [betaTable, Real.exp_zero]
  have hcm : checkForMovement 2 occC3 paramsDefault d0 d0 0 1 1 =
      { occ :=
          if (moveAgent deadC3 1 1 (Loc.nodeObj 1) betaTable 1).2 then
            (fun s => if s = 0 then (occC3 0).eraseIdx 0
              else if s = 1 then
                occC3 1 ++ [(moveAgent deadC3 1 1 (Loc.nodeObj 1) betaTable 1).1]
              else occC3 s)
          else occC3
        attempted := some (0, 1, 0) } := rfl
  rw [hcm, hres]
  exact ⟨rfl, by simp [occC3], by simp [occC3]⟩

/-- Claim C3, amended: a dead agent is permanently excluded from
infection exposure (`expose_to_infection` is a no-op on it) and from
death progression (`update_agent` is a no-op on it), and even a
successful `move_agent` leaves its health state and day counter
unchanged — but it is *not* excluded from movement: `move_agent`
rejects only symptomatic movers, so a dead agent can be selected and
relocated, changing its location and site membership. -/
theorem dead_agent_state_preserved (a : Agent) (lam : ℝ)
    (r : ℕ) (al sl : ℤ) (n1 n2 : ℕ) (t : Loc) (beta : ℕ → ℝ) (rr : ℕ)
    (h : a.health = Health.dead) :
    exposeToInfection a lam r = (a, false) ∧
    updateAgent a al sl = (a, false) ∧
    (moveAgent a n1 n2 t beta rr).1.health = Health.dead ∧
    (moveAgent a n1 n2 t beta rr).1.days = a.days := by
  refine ⟨by simp [exposeToInfection, h], by simp [updateAgent, h], ?_, ?_⟩ <;>
    · rw [moveAgent]
      split_ifs <;> simp [h]

/-- Witness for the amended C3: the dead fixture agent is untouched by
exposure (`λ = 1`, draw 1) and by `update_agent`, and any `move_agent`
outcome keeps it dead with its day counter. -/
theorem dead_agent_state_preserved_witness :
    exposeToInfection aD 1 1 = (aD, false) ∧
    updateAgent aD 0 0 = (aD, false) ∧
    (moveAgent aD 1 1 (Loc.nodeObj 1) betaTable 1).1.health = Health.dead ∧
    (moveAgent aD 1 1 (Loc.nodeObj 1) betaTable 1).1.days = aD.days :=
  dead_agent_state_preserved aD 1 1 0 0 1 1 (Loc.nodeObj 1) betaTable 1 rfl

/-- Claim C6 fails on the code: the symptomatic scan of the candidate
destination (`for agent_index in range(0, len(occupants) - 1)`,
Network.py line 140) never examines the *last* occupant, so a
destination whose only symptomatic occupant is last in its list passes
the check and `move_agent` is reached.  Concrete run: 2×2 lattice,
healthy mover at site 0, destination site 1 whose sole occupant is
symptomatic — the phase reaches the `move_agent` call
(`attempted = some (0, 1, 0)`) with no resampling at all. -/
theorem attempt_move_reached_with_symptomatic_dest :
    (checkForMovement 2 occC6 paramsDefault d0 d0 0 1 1).attempted =
      some (0, 1, 0) ∧
    sympC6 ∈ occC6 1 ∧ sympC6.health = Health.symptomatic := by
  refine ⟨rfl, ?_, rfl⟩
  show sympC6 ∈ [sympC6]
  exact List.mem_singleton.mpr rfl

/-- Claim C4 fails on the code: the exposure loop of
`__check_for_infection` (`for o_index in range(0, len(occupants) - 1)`,
Network.py line 193) skips the last occupant of every neighbour-or-self
site.  Concrete run: a 1×1 lattice whose only site holds an infectious
agent followed by a healthy agent; for *every* transmission probability
and every draw stream the healthy last occupant is left untouched by
the whole infection phase (and the statistics never change), although a
direct `expose_to_infection` call on it with `λ = 1` and draw `r = 1`
would infect it. -/
theorem infection_skips_last_occupant :
    (∀ (lam : ℝ) (oracle : ℕ → ℕ → ℕ → ℕ → ℕ),
      ((checkForInfection lam oracle 1 stC4).occ 0).getD 1 default = hlthC4 ∧
      (checkForInfection lam oracle 1 stC4).stats = stC4.stats) ∧
    exposeToInfection hlthC4 1 1 =
      ({ hlthC4 with health := Health.asymptomatic, days := 0 }, true) := by
  constructor
  · intro lam oracle
    exact ⟨rfl, rfl⟩
  · rw [exposeToInfection]
    rw [if_neg (show ¬ (hlthC4.health = Health.asymptomatic ∨
        hlthC4.health = Health.symptomatic ∨ hlthC4.health = Health.dead)
      by decide)]
    rw [if_pos]
    show ((1 : ℕ) : ℝ) / 100 ≤ 1 * hlthC4.suscept
    have hcat : hlthC4.suscept = Real.exp (-(1 : ℝ) / 10) := by
      show susceptibilityOf (ageCategorize 20) = _
      rw [show ageCategorize 20 = 1 from rfl, susceptibilityOf]
      norm_num
    rw [hcat]
    have h := Real.add_one_le_exp (-(1 : ℝ) / 10)
    norm_num at h ⊢
    linarith

/-- Claim C9: the influx phase adds exactly one new healthy agent at
the drawn site — appending it to that site's occupant list and bumping
its category's `total` and `alive` — iff the drawn probability `r/100`
is strictly below the configured influx rate; otherwise (in particular
for the boundary draw `r = 100` at `influx = 1`) the whole state is
unchanged. -/
theorem checkForInflux_spec (st : SimState) (influx : ℝ) (r sd ad : ℕ) :
    ((r : ℝ) / 100 < influx →
      (checkForInflux influx r sd ad st).occ sd =
          st.occ sd ++ [mkAgent ad sd] ∧
        (mkAgent ad sd).health = Health.healthy ∧
        (∀ s, s ≠ sd → (checkForInflux influx r sd ad st).occ s = st.occ s) ∧
        (checkForInflux influx r sd ad st).stats =
          bumpCreatedAlive st.stats (ageCategorize ad)) ∧
    (¬ (r : ℝ) / 100 < influx → checkForInflux influx r sd ad st = st) ∧
    (influx = 1 → r = 100 → checkForInflux influx r sd ad st = st) := by
  refine ⟨fun h => ?_, fun h => ?_, fun h1 h2 => ?_⟩
  · rw [checkForInflux, if_pos h]
    exact ⟨by simp [updateAt], rfl,
      fun s hs => by simp [updateAt, hs], rfl⟩
  · rw [checkForInflux, if_neg h]
  · subst h1; subst h2
    rw [checkForInflux, if_neg (by norm_num)]

/-- Witness for C9: on the empty fixture state, the boundary draw
`r = 100` at `influx = 1` adds nothing, while the draw `r = 50` at
`influx = 1` appends one new healthy agent at site 0. -/
theorem checkForInflux_spec_witness :
    checkForInflux 1 100 0 0 st0 = st0 ∧
    (checkForInflux 1 50 0 0 st0).occ 0 = st0.occ 0 ++ [mkAgent 0 0] ∧
    (mkAgent 0 0).health = Health.healthy :=
  ⟨(checkForInflux_spec st0 1 100 0 0).2.2 rfl rfl,
   ((checkForInflux_spec st0 1 50 0 0).1 (by norm_num)).1,
   ((checkForInflux_spec st0 1 50 0 0).1 (by norm_num)).2.1⟩

end Epidemic
